import Mathlib

/-! Transport & Configuration Resolver of swagger-mcp.

Shallow embedding of `src/main.go` of the `swagger-mcp` repository: the
string helpers mirroring Go's `strings` package, a model of
`net/url.Parse` restricted to the shapes the resolver uses, the address
resolvers `getHttpAddr` and `getSseUrlAddr`, and the validation /
assembly pipeline of `main` (flag inputs to a resolved `Config`).

Fatal `log.Fatal` calls are embedded as `Except.error` values of the
error taxonomy; the external collaborators (`swagger.LoadSwagger`,
`swagger.ExtractSwagger`, `mcpserver.CreateServer`) perform no
validation or defaulting and are outside the model. The local-file
existence check (`os.Stat`) is abstracted by a `fileExists` oracle
passed to the pipeline. -/

namespace SwaggerMcp

/-! Go string primitives: character-list implementations of the
`strings` operations used by `main.go`, kept structurally recursive so
that concrete runs reduce by `rfl`/`decide`. -/

/-- Models Go `strings.HasPrefix s p`. -/
def strStartsWith (s p : String) : Bool :=
  p.data.isPrefixOf s.data

/-- Models Go `strings.Contains s c` for a single-character substring. -/
def strContains (s : String) (c : Char) : Bool :=
  s.data.contains c

/-- Models Go `strings.TrimPrefix` when the prefix is known to be
present: drop the prefix's `n` characters. -/
def strDrop (s : String) (n : Nat) : String :=
  ⟨s.data.drop n⟩

/-- Models Go `strings.Split` on a single-character separator: the list
of (possibly empty) segments between occurrences of `c`. -/
def splitOnChar (c : Char) : List Char → List (List Char)
  | [] => [[]]
  | x :: xs =>
    let r := splitOnChar c xs
    if x = c then [] :: r
    else
      match r with
      | [] => [[x]]
      | y :: ys => (x :: y) :: ys

/-- Splits a character list at the first occurrence of `c`: the part
before and the part after, or `none` when `c` does not occur. -/
def splitFirst (c : Char) : List Char → Option (List Char × List Char)
  | [] => none
  | x :: xs =>
    if x = c then some ([], xs)
    else
      match splitFirst c xs with
      | none => none
      | some (a, b) => some (x :: a, b)

/-- Lowercase of a string (Go lowercases URL schemes). -/
def strToLower (s : String) : String :=
  ⟨s.data.map Char.toLower⟩

/-! Model of `net/url.Parse`. `main.go` consumes only `u.Scheme` and
`u.Host` of a parsed URL. The model follows Go's `url.Parse` on
`scheme://authority[/...]` inputs: a scheme is the text before the
first `:` when it is a valid scheme token (first character a letter,
the rest letters, digits, `+`, `-` or `.`), lowercased; when the
remainder starts with `//`, the authority runs to the first `/`, `?`
or `#`, a userinfo part up to the last `@` is stripped, and the
segment after the last `:` of the host must be empty or numeric (Go's
`validOptionalPort`), otherwise parsing fails. A leading `:` (empty
scheme) fails with `missing protocol scheme`. Strings without a valid
scheme, and non-authority remainders, parse with an empty host. Not
modelled: percent-escapes, control-character rejection, and IPv6
bracket hosts whose bracketed part contains the last colon. -/

/-- A character Go accepts inside a URL scheme after the first. -/
def isSchemeChar (c : Char) : Bool :=
  c.isAlpha || c.isDigit || c = '+' || c = '-' || c = '.'

/-- Scheme-token validity as in Go: nonempty, first character a
letter, remaining characters scheme characters. -/
def validScheme : List Char → Bool
  | [] => false
  | c :: cs => c.isAlpha && cs.all isSchemeChar

/-- The Go `validOptionalPort` check applied to a host: the segment
after the last `:` (if any) must be all digits (possibly empty). -/
def hostPortValid (host : List Char) : Bool :=
  match (splitOnChar ':' host).reverse with
  | [] => true
  | [_] => true
  | p :: _ :: _ => p.all Char.isDigit

/-- The authority component: the remainder up to the first `/`, `?` or
`#`. -/
def takeAuthority (s : List Char) : List Char :=
  s.takeWhile fun c => !(c = '/' || c = '?' || c = '#')

/-- Drops a userinfo component: Go takes the host after the last `@`
of the authority. -/
def stripUserinfo (auth : List Char) : List Char :=
  match (splitOnChar '@' auth).reverse with
  | [] => auth
  | h :: _ => h

/-- The two components of a parsed URL that `main.go` consumes. -/
structure GoUrl where
  scheme : String
  host : String
deriving Repr, DecidableEq

/-- Model of `net/url.Parse` (see the section comment): `none` is a
parse error (`err != nil` in Go). -/
def urlParse (s : String) : Option GoUrl :=
  match splitFirst ':' s.data with
  | none => some ⟨"", ""⟩
  | some (pre, post) =>
    if validScheme pre then
      if ['/', '/'].isPrefixOf post then
        let host := stripUserinfo (takeAuthority (post.drop 2))
        if hostPortValid host then
          some ⟨strToLower ⟨pre⟩, ⟨host⟩⟩
        else none
      else some ⟨strToLower ⟨pre⟩, ""⟩
    else
      if pre = [] then none
      else some ⟨"", ""⟩

/-! Error taxonomy: one constructor per fatal `log.Fatal` site of
`main.go`, named after the spec's error taxonomy (spec section 7). -/

/-- The fatal-termination reasons of the resolver pipeline. -/
inductive FatalError where
  | missingSpecSource
  | invalidSpecUrl
  | specFileNotFound
  | unrecognizedSpecSourceScheme
  | invalidBaseUrl
  | conflictingTransportModes
  | invalidAddressFormat
  | invalidSseUrl
  | unsupportedScheme
deriving Repr, DecidableEq

/-! Address resolvers (`main.go` lines 16 to 74). -/

/-- Model of `getHttpAddr` (`main.go` 16 to 29): single-input resolver
for streamable-HTTP mode. The `log.Fatal` on the colon-free form is
`invalidAddressFormat`. -/
def getHttpAddr (httpAddr : String) : Except FatalError String :=
  if httpAddr = "" then .ok "localhost:8080"
  else if strStartsWith httpAddr ":" then .ok ("http://localhost" ++ httpAddr)
  else if !strContains httpAddr ':' then .error .invalidAddressFormat
  else .ok httpAddr

/-- The `switch u.Scheme` of `getSseUrlAddr`: the default port for a
scheme, `none` for the fatal `Unknown scheme` branch. -/
def defaultPort (scheme : String) : Option String :=
  if scheme = "http" then some "80"
  else if scheme = "https" then some "443"
  else none

/-- The host/port split of `getSseUrlAddr` (`main.go` 51 to 57): when
the host contains `:`, Go splits and takes `parts[0]` and `parts[1]`;
otherwise the host is kept whole and the port is empty. -/
def splitHostPort (host : String) : String × String :=
  match splitOnChar ':' host.data with
  | [] => (host, "")
  | [h] => (⟨h⟩, "")
  | h :: p :: _ => (⟨h⟩, ⟨p⟩)

/-- Model of `getSseUrlAddr` (`main.go` 31 to 74): dual-input resolver
for SSE mode, returning the `(sseUrl, sseAddr)` pair. Fatal sites:
`invalidAddressFormat` (line 43), `invalidSseUrl` (line 49, URL parse
error), `unsupportedScheme` (line 66). The trailing
`Either sseAddr or sseUrl must be provided` branch (line 71) is
unreachable: it requires both inputs empty, already handled first. -/
def getSseUrlAddr (sseUrl sseAddr : String) : Except FatalError (String × String) :=
  if sseAddr = "" && sseUrl = "" then
    .ok ("http://localhost:8080", "localhost:8080")
  else if !(sseAddr = "") then
    if strStartsWith sseAddr ":" then
      .ok ("http://localhost" ++ sseAddr, sseAddr)
    else if !strContains sseAddr ':' then
      .error .invalidAddressFormat
    else
      .ok ("http://" ++ sseAddr, sseAddr)
  else
    match urlParse sseUrl with
    | none => .error .invalidSseUrl
    | some u =>
      if (splitHostPort u.host).2 = "" then
        match defaultPort u.scheme with
        | some p => .ok (sseUrl, (splitHostPort u.host).1 ++ ":" ++ p)
        | none => .error .unsupportedScheme
      else
        .ok (sseUrl, (splitHostPort u.host).1 ++ ":" ++ (splitHostPort u.host).2)

/-! Input surface and configuration object: `Flags` is the raw CLI
input surface (`flag.String` / `flag.Bool` defaults are the zero
values); the `models.Config` aggregate and its sub-configs mirror the
fields `main.go` populates. -/

/-- The CLI flags of `main.go` (lines 79 to 97), all defaulted as by
the `flag` package. -/
structure Flags where
  specUrl : String := ""
  sseMode : Bool := false
  sseAddr : String := ""
  sseUrl : String := ""
  httpMode : Bool := false
  httpAddr : String := ""
  httpPath : String := ""
  baseUrl : String := ""
  includePaths : String := ""
  excludePaths : String := ""
  includeMethods : String := ""
  excludeMethods : String := ""
  security : String := ""
  basicAuth : String := ""
  bearerAuth : String := ""
  apiKeyAuth : String := ""
  headers : String := ""
  sseHeaders : String := ""
  httpHeaders : String := ""
deriving Repr, DecidableEq

/-- Mirror of `models.SseConfig` as populated at `main.go` 147 to 152. -/
structure SseConfig where
  sseMode : Bool
  sseAddr : String
  sseUrl : String
  sseHeaders : String
deriving Repr, DecidableEq

/-- Mirror of `models.HttpConfig` as populated at `main.go` 153 to 158. -/
structure HttpConfig where
  httpMode : Bool
  httpAddr : String
  httpPath : String
  httpHeaders : String
deriving Repr, DecidableEq

/-- Mirror of `models.ApiConfig` as populated at `main.go` 159 to 170. -/
structure ApiConfig where
  baseUrl : String
  includePaths : String
  excludePaths : String
  includeMethods : String
  excludeMethods : String
  security : String
  basicAuth : String
  apiKeyAuth : String
  bearerAuth : String
  headers : String
deriving Repr, DecidableEq

/-- Mirror of `models.Config` as populated at `main.go` 145 to 171. -/
structure Config where
  specUrl : String
  sseCfg : SseConfig
  httpCfg : HttpConfig
  apiCfg : ApiConfig
deriving Repr, DecidableEq

/-! The pipeline of `main` (lines 101 to 171). -/

/-- Spec-source validation (`main.go` 101 to 118). The `os.Stat`
existence check is the `fileExists` oracle applied to the path after
`strings.TrimPrefix(specUrl, "file://")`. Fatal sites in order:
`missingSpecSource` (103), `invalidSpecUrl` (109), `specFileNotFound`
(114), `unrecognizedSpecSourceScheme` (117). -/
def validateSpec (fileExists : String → Bool) (specUrl : String) :
    Except FatalError Unit :=
  if specUrl = "" then .error .missingSpecSource
  else if strStartsWith specUrl "http://" || strStartsWith specUrl "https://" then
    match urlParse specUrl with
    | none => .error .invalidSpecUrl
    | some _ => .ok ()
  else if strStartsWith specUrl "file://" then
    if fileExists (strDrop specUrl 7) then .ok () else .error .specFileNotFound
  else .error .unrecognizedSpecSourceScheme

/-- The `models.Config` literal of `main.go` 145 to 171, given the
resolved `finalSseUrl`, `finalSseAddr`, `finalHttpAddr`.
`finalHttpPath` is assigned only inside `if *httpMode` when the flag
is empty (lines 133 to 136), so it is `"/mcp"` in exactly that case
and otherwise keeps its zero value — a non-empty `--httpPath` is never
copied into the config. -/
def assemble (f : Flags) (finalSseUrl finalSseAddr finalHttpAddr : String) : Config :=
  { specUrl := f.specUrl
    sseCfg := { sseMode := f.sseMode
                sseAddr := finalSseAddr
                sseUrl := finalSseUrl
                sseHeaders := f.sseHeaders }
    httpCfg := { httpMode := f.httpMode
                 httpAddr := finalHttpAddr
                 httpPath := if f.httpMode && f.httpPath = "" then "/mcp" else ""
                 httpHeaders := f.httpHeaders }
    apiCfg := { baseUrl := f.baseUrl
                includePaths := f.includePaths
                excludePaths := f.excludePaths
                includeMethods := f.includeMethods
                excludeMethods := f.excludeMethods
                security := f.security
                basicAuth := f.basicAuth
                apiKeyAuth := f.apiKeyAuth
                bearerAuth := f.bearerAuth
                headers := f.headers } }

/-- The resolution pipeline of `main` (lines 101 to 171) in source
order: spec-source validation, base-URL validation (121 to 125), mode
arbitration (126 to 128), SSE resolution when `sseMode` (130 to 132),
HTTP resolution when `httpMode` (133 to 138), then the `Config`
literal. The external spec load (`swagger.LoadSwagger`, lines 139 to
143) performs no configuration work and is outside the model. -/
def mainResolve (fileExists : String → Bool) (f : Flags) :
    Except FatalError Config :=
  match validateSpec fileExists f.specUrl with
  | .error e => .error e
  | .ok _ =>
    if !(f.baseUrl = "") &&
        !(strStartsWith f.baseUrl "http://" || strStartsWith f.baseUrl "https://") then
      .error .invalidBaseUrl
    else if f.sseMode && f.httpMode then
      .error .conflictingTransportModes
    else
      match (if f.sseMode then getSseUrlAddr f.sseUrl f.sseAddr else .ok ("", "")) with
      | .error e => .error e
      | .ok (finalSseUrl, finalSseAddr) =>
        match (if f.httpMode then getHttpAddr f.httpAddr else .ok "") with
        | .error e => .error e
        | .ok finalHttpAddr =>
          .ok (assemble f finalSseUrl finalSseAddr finalHttpAddr)

/-! Spec-side notions for the SSE consistency invariant. The spec
(section 3) states that in SSE mode `dialableURL` and `listenAddress`
"denote the same host:port (the host:port of the dialable URL equals
the listen address)". These definitions follow the spec's words, for
comparison with what the code produces. -/

/-- The host:port component of a dialable URL: the parsed URL's host
(which carries the port when explicit), empty on parse failure. -/
def dialableHostPort (u : String) : String :=
  match urlParse u with
  | none => ""
  | some g => g.host

/-- The scheme-default ports of the spec (`http` to 80, `https` to
443), as a string, empty for other schemes. -/
def defaultPortFor (scheme : String) : String :=
  if scheme = "http" then "80" else if scheme = "https" then "443" else ""

/-- The host:port of a dialable URL with an omitted port completed
from the scheme default: `host:port` where the port is the explicit
one when present and the scheme default otherwise. -/
def hostPortCompleted (u : String) : String :=
  match urlParse u with
  | none => ""
  | some g =>
    (splitHostPort g.host).1 ++ ":" ++
      (if (splitHostPort g.host).2 = "" then defaultPortFor g.scheme
       else (splitHostPort g.host).2)

/-- Consistency of an SSE `(dialableURL, listenAddress)` pair as the
code establishes it: the dialable URL extends the listen address with
the `http://` scheme (with `localhost` inserted when the listen
address omits the host), or the listen address is the URL's host:port
with a scheme-default port completion. -/
def sseConsistent (u a : String) : Prop :=
  u = "http://" ++ a ∨ u = "http://localhost" ++ a ∨ a = hostPortCompleted u

/-! Concrete runs used by the witness theorems. -/

/-- The flags of the streamable-HTTP scenario: valid https spec URL,
`--http`, `--httpAddr=:9000`. -/
def exFlagsC1 : Flags :=
  { specUrl := "https://api.example.com/swagger.json", httpMode := true, httpAddr := ":9000" }

/-- Flags of a streamable-HTTP run with a non-empty `--httpPath`. -/
def exFlagsC2 : Flags :=
  { specUrl := "https://e.com/s.json", httpMode := true, httpPath := "/custom" }

/-- The config the pipeline produces for `exFlagsC2`. -/
def exCfgC2 : Config := assemble exFlagsC2 "" "" "localhost:8080"

/-- Flags of an SSE run with both address inputs empty. -/
def exFlagsC3 : Flags := { specUrl := "https://e.com/s.json", sseMode := true }

/-- The config the pipeline produces for `exFlagsC3`. -/
def exCfgC3 : Config := assemble exFlagsC3 "http://localhost:8080" "localhost:8080" ""

/-- Flags with both transport-mode booleans set. -/
def exFlagsC7 : Flags :=
  { specUrl := "https://e.com/s.json", sseMode := true, httpMode := true }

/-- Flags of a stdio run with a well-formed non-empty base URL. -/
def exFlagsC10 : Flags :=
  { specUrl := "https://e.com/s.json", baseUrl := "http://api.local" }

/-- The config the pipeline produces for `exFlagsC10`. -/
def exCfgC10 : Config := assemble exFlagsC10 "" "" ""

/-! General lemmas about the embedded string operations. -/

/-- String equality follows from equality of the character data. -/
theorem string_ext {a b : String} (h : a.data = b.data) : a = b := by
  cases a; cases b; cases h; rfl

/-- The character data of an appended string. -/
theorem data_append (s t : String) : (s ++ t).data = s.data ++ t.data := by
  cases s; cases t; rfl

/-- String append is associative. -/
theorem append_assoc_str (a b c : String) : a ++ b ++ c = a ++ (b ++ c) := by
  apply string_ext
  rw [data_append, data_append, data_append, data_append, List.append_assoc]

/-- Appending to a non-empty string is non-empty. -/
theorem append_ne_empty_left {s : String} (t : String) (h : s.data ≠ []) :
    ¬(s ++ t = "") := by
  intro he
  have hd : (s ++ t).data = [] := by rw [he]
  rw [data_append] at hd
  exact h (List.append_eq_nil.mp hd).1

/-- A string with a non-empty prefix is non-empty. -/
theorem ne_empty_of_startsWith {s p : String} (hp : p.data ≠ [])
    (h : strStartsWith s p = true) : ¬(s = "") := by
  intro he; subst he
  unfold strStartsWith at h
  have hpre := List.isPrefixOf_iff_prefix.mp h
  exact hp (List.prefix_nil.mp hpre)

/-- A string starting with `:` contains `:`. -/
theorem contains_of_startsWith_colon {s : String}
    (h : strStartsWith s ":" = true) : strContains s ':' = true := by
  unfold strStartsWith at h
  have hpre := List.isPrefixOf_iff_prefix.mp h
  unfold strContains
  cases hd : s.data with
  | nil => rw [hd] at hpre; exact absurd (List.prefix_nil.mp hpre) (by decide)
  | cons c cs =>
    rw [hd] at hpre
    obtain ⟨t, ht⟩ := hpre
    have hc : c = ':' := by
      have h2 : ([':'] ++ t) = c :: cs := ht
      injection h2 with h1 _
      exact h1.symm
    subst hc
    simp [List.contains]

/-- Splitting on an absent separator yields the whole list. -/
theorem splitOnChar_no_occ {c : Char} {l : List Char}
    (h : l.contains c = false) : splitOnChar c l = [l] := by
  induction l with
  | nil => rfl
  | cons x xs ih =>
    simp [List.contains] at h
    obtain ⟨h1, h2⟩ := h
    unfold splitOnChar
    rw [if_neg (by exact fun he => h1 (by rw [he]))]
    rw [ih (by simpa [List.contains] using h2)]

/-- A colon-free host splits into itself and an empty port. -/
theorem splitHostPort_no_colon {h : String} (hc : strContains h ':' = false) :
    splitHostPort h = (h, "") := by
  unfold splitHostPort
  rw [splitOnChar_no_occ (by exact hc)]

/-- When `defaultPort` yields a port, `defaultPortFor` yields the same
one. -/
theorem defaultPortFor_eq {s p : String} (h : defaultPort s = some p) :
    defaultPortFor s = p := by
  by_cases h1 : s = "http"
  · simp [defaultPort, h1] at h
    simp [defaultPortFor, h1, h]
  · by_cases h2 : s = "https"
    · simp [defaultPort, h1, h2] at h
      simp [defaultPortFor, h1, h2, h]
    · simp [defaultPort, h1, h2] at h

/-! Inversion lemmas for the resolvers and the pipeline. -/

/-- Every successful `getSseUrlAddr` result has a non-empty dialable
URL, a non-empty listen address, and the two are `sseConsistent`. -/
theorem getSseUrlAddr_ok {su sa u a : String}
    (h : getSseUrlAddr su sa = .ok (u, a)) :
    ¬(u = "") ∧ ¬(a = "") ∧ sseConsistent u a := by
  unfold getSseUrlAddr at h
  split at h
  case isTrue hboth =>
    simp only [Except.ok.injEq, Prod.mk.injEq] at h
    obtain ⟨rfl, rfl⟩ := h
    exact ⟨by decide, by decide, Or.inl (by decide)⟩
  case isFalse hboth =>
    split at h
    case isTrue hsa =>
      have hsane : ¬(sa = "") := by
        simpa using hsa
      split at h
      case isTrue hcolon =>
        simp only [Except.ok.injEq, Prod.mk.injEq] at h
        obtain ⟨rfl, rfl⟩ := h
        refine ⟨append_ne_empty_left sa (by decide), hsane, Or.inr (Or.inl rfl)⟩
      case isFalse hcolon =>
        split at h
        case isTrue => cases h
        case isFalse hcont =>
          simp only [Except.ok.injEq, Prod.mk.injEq] at h
          obtain ⟨rfl, rfl⟩ := h
          exact ⟨append_ne_empty_left sa (by decide), hsane, Or.inl rfl⟩
    case isFalse hsa =>
      have hsae : sa = "" := by simpa using hsa
      have hsune : ¬(su = "") := by
        intro he
        exact hboth (by simp [hsae, he])
      split at h
      case h_1 => cases h
      case h_2 gu hget =>
        split at h
        case isTrue hport =>
          split at h
          case h_1 p hdef =>
            simp only [Except.ok.injEq, Prod.mk.injEq] at h
            obtain ⟨rfl, rfl⟩ := h
            refine ⟨hsune, append_ne_empty_left _ ?_, Or.inr (Or.inr ?_)⟩
            · rw [data_append]
              simp
            · unfold hostPortCompleted
              rw [hget]
              dsimp only
              rw [if_pos hport, defaultPortFor_eq hdef]
          case h_2 => cases h
        case isFalse hport =>
          simp only [Except.ok.injEq, Prod.mk.injEq] at h
          obtain ⟨rfl, rfl⟩ := h
          refine ⟨hsune, append_ne_empty_left _ ?_, Or.inr (Or.inr ?_)⟩
          · rw [data_append]
            simp
          · unfold hostPortCompleted
            rw [hget]
            dsimp only
            rw [if_neg hport]

/-- The SSE resolver never reports the mode-conflict error. -/
theorem getSseUrlAddr_ne_conflict (su sa : String) :
    ¬(getSseUrlAddr su sa = .error .conflictingTransportModes) := by
  unfold getSseUrlAddr
  repeat' split
  all_goals simp

/-- The HTTP resolver never reports the mode-conflict error. -/
theorem getHttpAddr_ne_conflict (s : String) :
    ¬(getHttpAddr s = .error .conflictingTransportModes) := by
  unfold getHttpAddr
  repeat' split
  all_goals simp

/-- A spec-source validation error is the pipeline's result. -/
theorem mainResolve_spec_error {fe : String → Bool} {f : Flags} {e : FatalError}
    (h : validateSpec fe f.specUrl = .error e) :
    mainResolve fe f = .error e := by
  unfold mainResolve
  rw [h]

/-- Inversion of a successful pipeline run: the config is the
`assemble` literal over resolved values, each conditional resolver
succeeded, and the base URL passed its check. -/
theorem mainResolve_ok_elim {fe : String → Bool} {f : Flags} {cfg : Config}
    (h : mainResolve fe f = .ok cfg) :
    ∃ fsu fsa fha,
      cfg = assemble f fsu fsa fha ∧
      (if f.sseMode then getSseUrlAddr f.sseUrl f.sseAddr
       else .ok ("", "")) = .ok (fsu, fsa) ∧
      (if f.httpMode then getHttpAddr f.httpAddr else .ok "") = .ok fha ∧
      (¬(f.baseUrl = "") →
        (strStartsWith f.baseUrl "http://" || strStartsWith f.baseUrl "https://") = true) := by
  unfold mainResolve at h
  split at h
  case h_1 => cases h
  case h_2 =>
    split at h
    case isTrue => cases h
    case isFalse hbase =>
      have hbimp : ¬(f.baseUrl = "") →
          (strStartsWith f.baseUrl "http://" || strStartsWith f.baseUrl "https://") = true := by
        intro hne
        by_contra hpre
        apply hbase
        simp [hne, hpre]
      split at h
      case isTrue => cases h
      case isFalse hmode =>
        split at h
        case h_1 => cases h
        case h_2 fsu fsa hsse =>
          split at h
          case h_1 => cases h
          case h_2 fha hhttp =>
            injection h with h2
            exact ⟨fsu, fsa, fha, h2.symm, hsse, hhttp, hbimp⟩

/-! Claim theorems. -/

/-- C1 (counterexample): in the scenario `--specUrl=https://...`,
`--http`, `--httpAddr=:9000`, the assembled config's listen-address
field is `"http://localhost:9000"` — not `":9000"` as the claim
states. -/
theorem C1_counterexample :
    (mainResolve (fun _ => false) exFlagsC1).map
      (fun c => c.httpCfg.httpAddr) = .ok "http://localhost:9000" ∧
    ¬(("http://localhost:9000" : String) = ":9000") := ⟨rfl, by decide⟩

/-- C1 (amended): for a run with a valid https spec URL, the
streamable-HTTP flag set and `--httpAddr=:9000`, resolution succeeds
in streamable-HTTP mode with the config's listen-address field equal
to `"http://localhost:9000"` (the resolver's completed form of
`":9000"`), mount path `"/mcp"`, and SSE disabled with empty SSE
fields. -/
theorem C1_streamable_http_scenario (fe : String → Bool) (su : String)
    (h1 : strStartsWith su "https://" = true)
    (h2 : (urlParse su).isSome = true) :
    ∃ cfg, mainResolve fe { specUrl := su, httpMode := true, httpAddr := ":9000" } = .ok cfg ∧
      cfg.httpCfg.httpMode = true ∧
      cfg.httpCfg.httpAddr = "http://localhost:9000" ∧
      cfg.httpCfg.httpPath = "/mcp" ∧
      cfg.sseCfg.sseMode = false ∧
      cfg.sseCfg.sseUrl = "" ∧ cfg.sseCfg.sseAddr = "" := by
  obtain ⟨g, hg⟩ := Option.isSome_iff_exists.mp h2
  have hne : ¬(su = "") := ne_empty_of_startsWith (by decide) h1
  have hv : validateSpec fe su = .ok () := by
    unfold validateSpec
    rw [if_neg hne, h1]
    simp [hg]
  refine ⟨assemble { specUrl := su, httpMode := true, httpAddr := ":9000" } "" ""
      "http://localhost:9000", ?_, rfl, rfl, rfl, rfl, rfl, rfl⟩
  have hv2 : validateSpec fe
      (Flags.specUrl { specUrl := su, httpMode := true, httpAddr := ":9000" }) = .ok () := hv
  unfold mainResolve
  rw [hv2]
  rfl

/-- C1 (witness): the amended scenario evaluated at the concrete spec
URL `https://api.example.com/swagger.json`. -/
theorem C1_witness :
    strStartsWith "https://api.example.com/swagger.json" "https://" = true ∧
    (urlParse "https://api.example.com/swagger.json").isSome = true ∧
    (∃ cfg, mainResolve (fun _ => false) exFlagsC1 = .ok cfg ∧
      cfg.httpCfg.httpMode = true ∧
      cfg.httpCfg.httpAddr = "http://localhost:9000" ∧
      cfg.httpCfg.httpPath = "/mcp" ∧
      cfg.sseCfg.sseMode = false ∧
      cfg.sseCfg.sseUrl = "" ∧ cfg.sseCfg.sseAddr = "") :=
  ⟨by decide, by decide,
    C1_streamable_http_scenario (fun _ => false) "https://api.example.com/swagger.json"
      (by decide) (by decide)⟩

/-- C2: in streamable-HTTP mode, the assembled config's mount path is
`"/mcp"` exactly when the `--httpPath` flag is empty, and the empty
string for every non-empty flag value — the supplied value is never
copied into the config. -/
theorem C2_mount_path (fe : String → Bool) (f : Flags) (cfg : Config)
    (hmode : f.httpMode = true) (hok : mainResolve fe f = .ok cfg) :
    cfg.httpCfg.httpPath = (if f.httpPath = "" then "/mcp" else "") := by
  obtain ⟨fsu, fsa, fha, hcfg, _, _, _⟩ := mainResolve_ok_elim hok
  subst hcfg
  simp [assemble, hmode]

/-- C2 (witness): a run with `--httpPath=/custom` yields an empty
mount path. -/
theorem C2_witness :
    exFlagsC2.httpMode = true ∧
    mainResolve (fun _ => false) exFlagsC2 = .ok exCfgC2 ∧
    exCfgC2.httpCfg.httpPath = (if exFlagsC2.httpPath = "" then "/mcp" else "") :=
  ⟨rfl, rfl, C2_mount_path (fun _ => false) exFlagsC2 exCfgC2 rfl rfl⟩

/-- C3 (counterexample): with `--sse --sseAddr=:9000` construction
succeeds, SSE is enabled, but the host:port of the dialable URL
(`localhost:9000`) does not equal the listen address (`:9000`) — the
claim's strict equality fails. -/
theorem C3_counterexample :
    (mainResolve (fun _ => false)
        { specUrl := "https://e.com/s.json", sseMode := true, sseAddr := ":9000" }).map
      (fun c => (c.sseCfg.sseMode, dialableHostPort c.sseCfg.sseUrl, c.sseCfg.sseAddr)) =
      .ok (true, "localhost:9000", ":9000") ∧
    ¬(("localhost:9000" : String) = ":9000") := ⟨rfl, by decide⟩

/-- C3 (amended): whenever SSE mode is enabled and config construction
succeeds, both the dialable URL and the listen address are non-empty,
and they are consistent in the weaker sense `sseConsistent`: the
dialable URL is the listen address prefixed with `http://`, or with
`http://localhost` when the listen address is in `:PORT` form (there
the URL's host `localhost` differs from the empty host of the listen
address), or the listen address is the URL's host:port completed with
the scheme-default port. -/
theorem C3_sse_consistency (fe : String → Bool) (f : Flags) (cfg : Config)
    (hok : mainResolve fe f = .ok cfg) (hsse : cfg.sseCfg.sseMode = true) :
    ¬(cfg.sseCfg.sseUrl = "") ∧ ¬(cfg.sseCfg.sseAddr = "") ∧
      sseConsistent cfg.sseCfg.sseUrl cfg.sseCfg.sseAddr := by
  obtain ⟨fsu, fsa, fha, hcfg, hsseR, _, _⟩ := mainResolve_ok_elim hok
  subst hcfg
  have hm : f.sseMode = true := by simpa [assemble] using hsse
  rw [hm] at hsseR
  simp only [if_true] at hsseR
  exact getSseUrlAddr_ok hsseR

/-- C3 (witness): the amended invariant evaluated on a concrete SSE
run with both address inputs empty. -/
theorem C3_witness :
    mainResolve (fun _ => false) exFlagsC3 = .ok exCfgC3 ∧
    exCfgC3.sseCfg.sseMode = true ∧
    (¬(exCfgC3.sseCfg.sseUrl = "") ∧ ¬(exCfgC3.sseCfg.sseAddr = "") ∧
      sseConsistent exCfgC3.sseCfg.sseUrl exCfgC3.sseCfg.sseAddr) :=
  ⟨rfl, rfl, C3_sse_consistency (fun _ => false) exFlagsC3 exCfgC3 rfl rfl⟩

/-- C4: when only the dialable URL is given to the dual-input resolver
and its host has no explicit port, the listen-address port is 80 for
scheme `http` and 443 for scheme `https`, any other scheme fails with
`unsupportedScheme`, and on success the result pairs the original URL
with `host:port`. -/
theorem C4_scheme_port (url sc hst : String)
    (hp : urlParse url = some ⟨sc, hst⟩)
    (hnc : strContains hst ':' = false)
    (hne : ¬(url = "")) :
    getSseUrlAddr url "" =
      (if sc = "http" then .ok (url, hst ++ ":80")
       else if sc = "https" then .ok (url, hst ++ ":443")
       else .error .unsupportedScheme) := by
  have hsp : splitHostPort hst = (hst, "") := splitHostPort_no_colon hnc
  by_cases h1 : sc = "http"
  · simp [getSseUrlAddr, hne, hp, hsp, defaultPort, h1]
    rw [append_assoc_str]
    congr 1
  · by_cases h2 : sc = "https"
    · simp [getSseUrlAddr, hne, hp, hsp, defaultPort, h1, h2]
      rw [append_assoc_str]
      congr 1
    · simp [getSseUrlAddr, hne, hp, hsp, defaultPort, h1, h2]

/-- C4 (witness): the scheme-default completion evaluated at
`https://example.com`. -/
theorem C4_witness :
    urlParse "https://example.com" = some ⟨"https", "example.com"⟩ ∧
    strContains "example.com" ':' = false ∧
    ¬(("https://example.com" : String) = "") ∧
    getSseUrlAddr "https://example.com" "" =
      (if ("https" : String) = "http" then .ok ("https://example.com", "example.com" ++ ":80")
       else if ("https" : String) = "https" then .ok ("https://example.com", "example.com" ++ ":443")
       else .error .unsupportedScheme) :=
  ⟨by decide, by decide, by decide,
    C4_scheme_port "https://example.com" "https" "example.com" (by decide) (by decide) (by decide)⟩

/-- C5: for every non-empty listen address given to the dual-input
resolver: a leading-colon `:PORT` form yields the dialable URL
`http://localhost:PORT` with the listen address returned as given; a
`HOST:PORT` form yields the input prefixed with `http://`; a string
with no colon fails with `invalidAddressFormat`. -/
theorem C5_listen_address_forms (su sa : String) (hne : ¬(sa = "")) :
    (strStartsWith sa ":" = true →
      getSseUrlAddr su sa = .ok ("http://localhost" ++ sa, sa)) ∧
    (strStartsWith sa ":" = false → strContains sa ':' = true →
      getSseUrlAddr su sa = .ok ("http://" ++ sa, sa)) ∧
    (strContains sa ':' = false →
      getSseUrlAddr su sa = .error .invalidAddressFormat) := by
  refine ⟨?_, ?_, ?_⟩
  · intro hc
    simp [getSseUrlAddr, hne, hc]
  · intro hc1 hc2
    simp [getSseUrlAddr, hne, hc1, hc2]
  · intro hc
    have hs : strStartsWith sa ":" = false := by
      cases hb : strStartsWith sa ":"
      · rfl
      · rw [contains_of_startsWith_colon hb] at hc
        cases hc
    simp [getSseUrlAddr, hne, hs, hc]

/-- C5 (witness): the listen-address forms evaluated at `:9000`. -/
theorem C5_witness :
    ¬((":9000" : String) = "") ∧
    ((strStartsWith ":9000" ":" = true →
      getSseUrlAddr "" ":9000" = .ok ("http://localhost" ++ ":9000", ":9000")) ∧
     (strStartsWith ":9000" ":" = false → strContains ":9000" ':' = true →
      getSseUrlAddr "" ":9000" = .ok ("http://" ++ ":9000", ":9000")) ∧
     (strContains ":9000" ':' = false →
      getSseUrlAddr "" ":9000" = .error .invalidAddressFormat)) :=
  ⟨by decide, C5_listen_address_forms "" ":9000" (by decide)⟩

/-- C6: with both dual-resolver inputs empty, the resolver returns
exactly the pair `("http://localhost:8080", "localhost:8080")`. -/
theorem C6_default_pair :
    getSseUrlAddr "" "" = .ok ("http://localhost:8080", "localhost:8080") := rfl

/-- C7: once the spec source and base URL pass their checks, the
pipeline fails with `conflictingTransportModes` exactly when both
transport-mode flags are true; in the three other combinations
resolution proceeds past the mode arbiter. -/
theorem C7_mode_conflict (fe : String → Bool) (f : Flags)
    (hspec : validateSpec fe f.specUrl = .ok ())
    (hbase : ¬(f.baseUrl = "") →
      (strStartsWith f.baseUrl "http://" || strStartsWith f.baseUrl "https://") = true) :
    mainResolve fe f = .error .conflictingTransportModes ↔
      (f.sseMode = true ∧ f.httpMode = true) := by
  have hbc : (!decide (f.baseUrl = "") &&
      !(strStartsWith f.baseUrl "http://" || strStartsWith f.baseUrl "https://")) = false := by
    by_cases hb : f.baseUrl = ""
    · simp [hb]
    · simp [hb, hbase hb]
  constructor
  · intro h
    by_contra hcon
    have hmm : (f.sseMode && f.httpMode) = false := by
      cases hs : f.sseMode <;> cases hh : f.httpMode <;> simp_all
    unfold mainResolve at h
    rw [hspec] at h
    dsimp only at h
    rw [if_neg (by rw [hbc]; exact Bool.false_ne_true)] at h
    rw [if_neg (by rw [hmm]; exact Bool.false_ne_true)] at h
    split at h
    · rename_i e1 hsse
      injection h with he
      subst he
      cases hs : f.sseMode
      · rw [hs] at hsse
        simp at hsse
      · rw [hs] at hsse
        simp only [if_true] at hsse
        exact getSseUrlAddr_ne_conflict f.sseUrl f.sseAddr (by simpa using hsse)
    · rename_i fsu fsa hsse
      split at h
      · rename_i e2 hhttp
        injection h with he
        subst he
        cases hh : f.httpMode
        · rw [hh] at hhttp
          simp at hhttp
        · rw [hh] at hhttp
          exact getHttpAddr_ne_conflict f.httpAddr (by simpa using hhttp)
      · simp at h
  · rintro ⟨h1, h2⟩
    unfold mainResolve
    rw [hspec]
    dsimp only
    rw [if_neg (by rw [hbc]; exact Bool.false_ne_true)]
    rw [if_pos (by rw [h1, h2]; rfl)]

/-- C7 (witness): a run with both `--sse` and `--http` set and a valid
spec source fails with the mode-conflict error. -/
theorem C7_witness :
    validateSpec (fun _ => false) exFlagsC7.specUrl = .ok () ∧
    mainResolve (fun _ => false) exFlagsC7 = .error .conflictingTransportModes :=
  ⟨rfl,
    (C7_mode_conflict (fun _ => false) exFlagsC7 rfl (fun h => absurd rfl h)).mpr ⟨rfl, rfl⟩⟩

/-- C8: a `file://` spec source whose file does not exist fails with
`specFileNotFound`, and a spec source with any prefix other than
`http://`, `https://` or `file://` fails with
`unrecognizedSpecSourceScheme`. -/
theorem C8_spec_source_errors (fe : String → Bool) (f g : Flags)
    (hf : f.specUrl = "file:///does/not/exist")
    (hfe : fe "/does/not/exist" = false)
    (hg : g.specUrl = "not-a-scheme://x") :
    mainResolve fe f = .error .specFileNotFound ∧
    mainResolve fe g = .error .unrecognizedSpecSourceScheme := by
  refine ⟨mainResolve_spec_error ?_, mainResolve_spec_error ?_⟩
  · rw [hf]
    have hv : validateSpec fe "file:///does/not/exist" =
        (if fe "/does/not/exist" = true then .ok () else .error .specFileNotFound) := rfl
    rw [hv, hfe]
    rfl
  · rw [hg]
    rfl

/-- C8 (witness): both spec-source failures evaluated with a
filesystem on which no file exists. -/
theorem C8_witness :
    (Flags.specUrl { specUrl := "file:///does/not/exist" } = "file:///does/not/exist") ∧
    ((fun (_ : String) => false) "/does/not/exist" = false) ∧
    (mainResolve (fun _ => false) { specUrl := "file:///does/not/exist" } =
      .error .specFileNotFound ∧
     mainResolve (fun _ => false) { specUrl := "not-a-scheme://x" } =
      .error .unrecognizedSpecSourceScheme) :=
  ⟨rfl, rfl,
    C8_spec_source_errors (fun _ => false)
      { specUrl := "file:///does/not/exist" } { specUrl := "not-a-scheme://x" } rfl rfl rfl⟩

/-- C9: with an empty spec source the pipeline fails with
`missingSpecSource` regardless of every other flag — no other
validation error can be reported. -/
theorem C9_missing_spec (fe : String → Bool) (f : Flags) (h : f.specUrl = "") :
    mainResolve fe f = .error .missingSpecSource := by
  apply mainResolve_spec_error
  rw [h]
  rfl

/-- C9 (witness): the empty spec source wins even with conflicting
modes and a malformed base URL also present. -/
theorem C9_witness :
    (Flags.specUrl { specUrl := "", sseMode := true, httpMode := true, baseUrl := "bad" } = "") ∧
    mainResolve (fun _ => false)
      { specUrl := "", sseMode := true, httpMode := true, baseUrl := "bad" } =
      .error .missingSpecSource :=
  ⟨rfl,
    C9_missing_spec (fun _ => false)
      { specUrl := "", sseMode := true, httpMode := true, baseUrl := "bad" } rfl⟩

/-- C10: in every successfully constructed config, a non-empty base
URL begins with `http://` or `https://`. -/
theorem C10_baseUrl_invariant (fe : String → Bool) (f : Flags) (cfg : Config)
    (hok : mainResolve fe f = .ok cfg)
    (hne : ¬(cfg.apiCfg.baseUrl = "")) :
    (strStartsWith cfg.apiCfg.baseUrl "http://" ||
      strStartsWith cfg.apiCfg.baseUrl "https://") = true := by
  obtain ⟨fsu, fsa, fha, hcfg, _, _, hbase⟩ := mainResolve_ok_elim hok
  subst hcfg
  exact hbase (by simpa [assemble] using hne)

/-- C10 (witness): the invariant evaluated on a successful run with
`--baseUrl=http://api.local`. -/
theorem C10_witness :
    mainResolve (fun _ => false) exFlagsC10 = .ok exCfgC10 ∧
    ¬(exCfgC10.apiCfg.baseUrl = "") ∧
    (strStartsWith exCfgC10.apiCfg.baseUrl "http://" ||
      strStartsWith exCfgC10.apiCfg.baseUrl "https://") = true :=
  ⟨rfl, by decide,
    C10_baseUrl_invariant (fun _ => false) exFlagsC10 exCfgC10 rfl (by decide)⟩

end SwaggerMcp
